import Mathlib

set_option autoImplicit false

/-!
Shallow embedding of the MAX98390 HDA side-codec driver
(src/speaker-fix/src): register constants, the component registry
(hda_scodec_component.h), the playback hook, bind/unbind, the probe-time
initialization sequence, I2C slot-index resolution, remove, and the
runtime suspend/resume path over a register-cache model.

Register I/O is modelled by an oracle `ioSeq : Nat → Int` giving the
return value of the n-th register access of a sequence (0 = success,
negative = the error code), matching the kernel convention that
regmap_read/regmap_write return 0 or a negative errno.
-/

/-! ## Register addresses (max98390_regs.h) -/

def MAX98390_SOFTWARE_RESET : Nat := 0x2000
def MAX98390_CLK_MON : Nat := 0x2012
def MAX98390_DAT_MON : Nat := 0x2014
def MAX98390_PCM_RX_EN_A : Nat := 0x201b
def MAX98390_PCM_MODE_CFG : Nat := 0x2024
def MAX98390_PCM_MASTER_MODE : Nat := 0x2025
def MAX98390_PCM_CLK_SETUP : Nat := 0x2026
def MAX98390_PCM_SR_SETUP : Nat := 0x2027
def MAX98390_R203A_AMP_EN : Nat := 0x203a
def MAX98390_PWR_GATE_CTL : Nat := 0x2050
def MAX98390_ENV_TRACK_VOUT_HEADROOM : Nat := 0x2076
def MAX98390_BOOST_BYPASS1 : Nat := 0x207c
def MAX98390_FET_SCALING3 : Nat := 0x2081
def MAX98390_R23E1_DSP_GLOBAL_EN : Nat := 0x23e1
def MAX98390_R23FF_GLOBAL_EN : Nat := 0x23FF
def MAX98390_R24FF_REV_ID : Nat := 0x24FF

/-! ## Errno values and PCM action constants (hda_generic.h) -/

def EINVAL : Int := 22
def ENOMEM : Int := 12

def HDA_GEN_PCM_ACT_OPEN : Nat := 0
def HDA_GEN_PCM_ACT_PREPARE : Nat := 1
def HDA_GEN_PCM_ACT_CLEANUP : Nat := 2
def HDA_GEN_PCM_ACT_CLOSE : Nat := 3

/-! ## Component registry (hda_scodec_component.h) -/

def HDA_MAX_COMPONENTS : Nat := 4
def HDA_MAX_NAME_SIZE : Nat := 50

/-- strscpy as used by bind: copies at most `size - 1` characters of the
source into a `size`-byte buffer, always NUL-terminating. -/
def strscpy (s : String) (size : Nat) : String :=
  String.mk (s.data.take (size - 1))

/-- One slot of the component registry. Device identities are opaque
handles, modelled as `Nat`; an unbound slot has `dev = none`. A playback
hook is a function from the PCM action code to the list of
(address, value) register writes it attempts, in order. The header's
remaining fields (adev, acpi callback/flag, pre/post playback hooks) are
never read or written by any code in this repository and are omitted. -/
structure hda_component where
  dev : Option Nat
  name : String
  playback_hook : Option (Nat → List (Nat × Nat))

/-- The registry: a fixed array of HDA_MAX_COMPONENTS slots (the mutex and
the codec back-pointer play no part in the modelled operations). -/
structure hda_component_parent where
  comps : Fin HDA_MAX_COMPONENTS → hda_component

/-- hda_component_from_index: NULL parent or an index outside
[0, ARRAY_SIZE(parent->comps)) yields NULL, otherwise a pointer to the
slot — modelled as the valid in-range index. -/
def hda_component_from_index (parent : Option hda_component_parent)
    (index : Int) : Option (Fin HDA_MAX_COMPONENTS) :=
  match parent with
  | none => none
  | some _ =>
      if h : 0 ≤ index ∧ index < (HDA_MAX_COMPONENTS : Int) then
        some ⟨index.toNat, by
          simp only [HDA_MAX_COMPONENTS] at h ⊢
          omega⟩
      else none

/-! ## Playback hook (max98390_hda.c, max98390_hda_playback_hook) -/

/-- The playback hook: on OPEN it writes GLOBAL_EN=0x01 then AMP_EN=0x81,
on CLOSE it writes AMP_EN=0x80 then GLOBAL_EN=0x00, and on every other
action it writes nothing. Each write's failure is only logged, so the
attempted-write trace does not depend on I/O results. -/
def max98390_hda_playback_hook (action : Nat) : List (Nat × Nat) :=
  if action = HDA_GEN_PCM_ACT_OPEN then
    [(MAX98390_R23FF_GLOBAL_EN, 0x01), (MAX98390_R203A_AMP_EN, 0x81)]
  else if action = HDA_GEN_PCM_ACT_CLOSE then
    [(MAX98390_R203A_AMP_EN, 0x80), (MAX98390_R23FF_GLOBAL_EN, 0x00)]
  else []

/-! ## Bind and unbind (max98390_hda.c) -/

/-- max98390_hda_bind: looks the slot up by the driver state's index; a
NULL slot pointer yields -EINVAL, otherwise the slot's dev, name (strscpy
of dev_name(dev)) and playback_hook are overwritten unconditionally and 0
is returned. `dn` is the kernel's dev_name. Returns the return value
paired with the registry after the call. -/
def max98390_hda_bind (dn : Nat → String) (parent : Option hda_component_parent)
    (privIndex : Int) (d : Nat) : Int × Option hda_component_parent :=
  match hda_component_from_index parent privIndex with
  | none => (-EINVAL, parent)
  | some i =>
      match parent with
      | none => (-EINVAL, parent)
      | some p =>
          (0, some ⟨fun j =>
            if j = i then
              { dev := some d,
                name := strscpy (dn d) HDA_MAX_NAME_SIZE,
                playback_hook := some max98390_hda_playback_hook }
            else p.comps j⟩)

/-- max98390_hda_unbind: looks the slot up by index; when the slot exists
and its dev equals the caller's device, the dev is set to NULL, the name
zeroed and the playback hook cleared; otherwise nothing changes. Returns
the registry after the call. -/
def max98390_hda_unbind (parent : Option hda_component_parent)
    (privIndex : Int) (d : Nat) : Option hda_component_parent :=
  match hda_component_from_index parent privIndex with
  | none => parent
  | some i =>
      match parent with
      | none => parent
      | some p =>
          if (p.comps i).dev = some d then
            some ⟨fun j =>
              if j = i then { dev := none, name := "", playback_hook := none }
              else p.comps j⟩
          else some p

/-! ## Probe-time initialization (max98390_hda.c, max98390_hda_init) -/

/-- The unchecked register writes of max98390_hda_init that follow the
software reset, in source order: baseline configuration, PCM/I2S format,
then GLOBAL_EN off, AMP_EN off, DSP_GLOBAL_EN off. -/
def max98390_init_writes : List (Nat × Nat) :=
  [(MAX98390_CLK_MON, 0x6f), (MAX98390_DAT_MON, 0x00),
   (MAX98390_PWR_GATE_CTL, 0x00), (MAX98390_PCM_RX_EN_A, 0x03),
   (MAX98390_ENV_TRACK_VOUT_HEADROOM, 0x0e), (MAX98390_BOOST_BYPASS1, 0x46),
   (MAX98390_FET_SCALING3, 0x03),
   (MAX98390_PCM_MODE_CFG, 0xc0), (MAX98390_PCM_MASTER_MODE, 0x1c),
   (MAX98390_PCM_CLK_SETUP, 0x44), (MAX98390_PCM_SR_SETUP, 0x08),
   (MAX98390_R23FF_GLOBAL_EN, 0x00), (MAX98390_R203A_AMP_EN, 0x80),
   (MAX98390_R23E1_DSP_GLOBAL_EN, 0x00)]

/-- max98390_hda_init. Access 0 is the REV_ID regmap_read: its failure is
returned (fatal). Access 1 is the SOFTWARE_RESET regmap_write: its failure
is returned as well (the code checks this write's result). The msleep(20),
the fourteen following writes (accesses 2..15, results ignored), the
msleep(50) between them and the filter-configuration collaborator (whose
result is not propagated) then run unconditionally. On success, the full
attempted-write trace is returned. -/
def max98390_hda_init (ioSeq : Nat → Int) : Except Int (List (Nat × Nat)) :=
  if ioSeq 0 < 0 then .error (ioSeq 0)
  else if ioSeq 1 < 0 then .error (ioSeq 1)
  else .ok ((MAX98390_SOFTWARE_RESET, 0x01) :: max98390_init_writes)

/-! ## Probe and remove (max98390_hda.c) -/

def MAX98390_HDA_I2C : Nat := 0

/-- Driver state (max98390_hda.h, struct max98390_hda_priv). The regmap
handle is nullable to model a device for which no handle was stored. -/
structure max98390_hda_priv where
  dev : Nat
  regmap : Option Nat
  bus_type : Nat
  irq : Int
  index : Int
  i2c_addr : Nat
deriving DecidableEq

/-- External outcomes a probe run consumes: whether devm_kzalloc succeeds,
the register-access results of the init sequence, and component_add's
return value. -/
structure ProbeEnv where
  allocOk : Bool
  ioSeq : Nat → Int
  componentAddRet : Int

/-- max98390_hda_probe: allocates the driver state (-ENOMEM on failure),
fills it (index := id), sets drvdata, runs max98390_hda_init (propagating
its error), then component_add (propagating its error). `device_name` is
the displayName argument; the body never reads it. -/
def max98390_hda_probe (env : ProbeEnv) (dev : Nat) (device_name : String)
    (id : Int) (irq : Int) (regmap : Option Nat) (bus_type : Nat)
    (i2c_addr : Nat) : Except Int max98390_hda_priv :=
  if env.allocOk = false then .error (-ENOMEM)
  else
    let priv : max98390_hda_priv :=
      { dev := dev, regmap := regmap, bus_type := bus_type, irq := irq,
        index := id, i2c_addr := i2c_addr }
    match max98390_hda_init env.ioSeq with
    | .error e => .error e
    | .ok _ =>
        if env.componentAddRet ≠ 0 then .error env.componentAddRet
        else .ok priv

/-- max98390_hda_remove: after component_del, writes AMP_EN=0x80 (result
ignored) only when drvdata holds a driver state with a non-NULL regmap.
Returns the attempted-write trace. -/
def max98390_hda_remove (drvdata : Option max98390_hda_priv) : List (Nat × Nat) :=
  match drvdata with
  | some priv =>
      match priv.regmap with
      | some _ => [(MAX98390_R203A_AMP_EN, 0x80)]
      | none => []
  | none => []

/-! ## I2C probe and index resolution (max98390_hda_i2c.c) -/

/-- strrchr(s, a dot) followed by the step past the dot: the characters
after the last dot of the name, or none when the name has no dot. -/
def strrchr_suffix (s : String) : Option String :=
  if s.data.contains '.' then
    some (String.mk ((s.data.reverse.takeWhile (fun c => c ≠ '.')).reverse))
  else none

/-- kstrtoint with base 10: an optional sign followed by at least one
decimal digit and nothing else, with the result required to fit a 32-bit
int (out of range is -ERANGE, a failure). The kernel helper also tolerates
one trailing newline, which a device name cannot contain. -/
def kstrtoint (s : String) : Option Int :=
  let l := s.data
  let sign : Int := match l with
    | '-' :: _ => -1
    | _ => 1
  let digs : List Char := match l with
    | '-' :: rest => rest
    | '+' :: rest => rest
    | _ => l
  if digs = [] then none
  else if digs.all (fun c => c.isDigit) then
    let n : Nat := digs.foldl (fun acc c => acc * 10 + (c.toNat - '0'.toNat)) 0
    let v : Int := sign * (n : Int)
    if -(2 ^ 31) ≤ v ∧ v < 2 ^ 31 then some v else none
  else none

/-- The address fallback of max98390_hda_i2c_probe's switch:
0x38→0, 0x39→1, 0x3c→2, 0x3d→3, anything else -EINVAL. -/
def max98390_i2c_addr_index (addr : Nat) : Except Int Int :=
  if addr = 0x38 then .ok 0
  else if addr = 0x39 then .ok 1
  else if addr = 0x3c then .ok 2
  else if addr = 0x3d then .ok 3
  else .error (-EINVAL)

/-- Index derivation of max98390_hda_i2c_probe: if the device name has a
dot and kstrtoint parses what follows the last dot, that value is the
index; otherwise the I2C address table decides. -/
def max98390_i2c_index (devName : String) (addr : Nat) : Except Int Int :=
  match strrchr_suffix devName with
  | some suf =>
      match kstrtoint suf with
      | some index => .ok index
      | none => max98390_i2c_addr_index addr
  | none => max98390_i2c_addr_index addr

/-- An I2C client: device handle, 7-bit address, interrupt line. -/
structure i2c_client where
  dev : Nat
  addr : Nat
  irq : Int
deriving DecidableEq

/-- max98390_hda_i2c_probe: resolves the index (returning -EINVAL before
any driver state is created when it fails), then calls max98390_hda_probe
with displayName "MAX98390", the resolved index, the client's irq, the
regmap handle devm_regmap_init_i2c creates for the client (opaque, tied to
the client's device), bus type I2C and the client's address. `dn` is the
kernel's dev_name. -/
def max98390_hda_i2c_probe (dn : Nat → String) (env : ProbeEnv)
    (clt : i2c_client) : Except Int max98390_hda_priv :=
  match max98390_i2c_index (dn clt.dev) clt.addr with
  | .error e => .error e
  | .ok index =>
      max98390_hda_probe env clt.dev "MAX98390" index clt.irq
        (some clt.dev) MAX98390_HDA_I2C clt.addr

/-! ## Register cache and runtime PM (max98390_hda.c, regmap collaborator)

The regmap/regcache implementation lives in the kernel, outside this
repository; its behaviour here is modelled from the spec's Register
Access Layer (§4.2, §4.5, glossary): a hardware image, an in-memory
mirror, a cache-only flag deferring writes to the mirror, a dirty flag,
and a sync that replays the mirror to hardware. -/

/-- Observable register-layer events, used to state call order. -/
inductive RegmapEvent where
  | write (addr val : Nat)
  | cacheOnlySet (enable : Bool)
  | markDirty
  | sync
deriving DecidableEq

/-- Modelled from the spec: the Register Access Layer's state — hardware
register image, cache mirror, cache-only mode flag, dirty flag. -/
structure RegmapState where
  cacheOnly : Bool
  dirty : Bool
  hw : Nat → Nat
  cache : Nat → Nat

/-- Modelled from the spec: regmap_write. In cache-only mode the value
goes to the mirror (marking it dirty) and succeeds without touching
hardware; otherwise the hardware I/O result `ioRet` decides: on failure
nothing changes, on success hardware and mirror both take the value. -/
def regmap_write (st : RegmapState) (addr val : Nat) (ioRet : Int) :
    Int × RegmapState :=
  if st.cacheOnly then
    (0, { st with
            cache := (fun a => if a = addr then val else st.cache a),
            dirty := true })
  else if ioRet < 0 then (ioRet, st)
  else
    (0, { st with
            hw := (fun a => if a = addr then val else st.hw a),
            cache := (fun a => if a = addr then val else st.cache a) })

/-- Modelled from the spec: regcache_cache_only sets the cache-only flag. -/
def regcache_cache_only (st : RegmapState) (enable : Bool) : RegmapState :=
  { st with cacheOnly := enable }

/-- Modelled from the spec: regcache_mark_dirty marks the mirror dirty. -/
def regcache_mark_dirty (st : RegmapState) : RegmapState :=
  { st with dirty := true }

/-- Modelled from the spec: regcache_sync replays the mirror to hardware
and marks the cache clean. -/
def regcache_sync (st : RegmapState) : RegmapState :=
  { st with hw := st.cache, dirty := false }

/-- A sequence of regmap_write calls, each paired with its hardware I/O
result (unread while the cache is in cache-only mode). -/
def regmap_write_seq (st : RegmapState) : List ((Nat × Nat) × Int) → RegmapState
  | [] => st
  | (w, r) :: ws => regmap_write_seq (regmap_write st w.1 w.2 r).2 ws

/-- The value of the last write to address `a` in a write sequence, if any. -/
def lastWrite (ws : List ((Nat × Nat) × Int)) (a : Nat) : Option Nat :=
  match ws with
  | [] => none
  | (w, _) :: rest =>
      match lastWrite rest a with
      | some v => some v
      | none => if w.1 = a then some w.2 else none

/-- max98390_hda_runtime_suspend: writes AMP_EN=0x80 (result ignored),
sets cache-only mode, marks the cache dirty, returns 0. The middle
component is the event trace, in call order. -/
def max98390_hda_runtime_suspend (st : RegmapState) (ioRet : Int) :
    Int × List RegmapEvent × RegmapState :=
  let st1 := (regmap_write st MAX98390_R203A_AMP_EN 0x80 ioRet).2
  let st2 := regcache_cache_only st1 true
  let st3 := regcache_mark_dirty st2
  (0, [RegmapEvent.write MAX98390_R203A_AMP_EN 0x80,
       RegmapEvent.cacheOnlySet true, RegmapEvent.markDirty], st3)

/-- max98390_hda_runtime_resume: clears cache-only mode, then syncs the
cache to hardware, returns 0. The middle component is the event trace. -/
def max98390_hda_runtime_resume (st : RegmapState) :
    Int × List RegmapEvent × RegmapState :=
  let st1 := regcache_cache_only st false
  let st2 := regcache_sync st1
  (0, [RegmapEvent.cacheOnlySet false, RegmapEvent.sync], st2)

/-- A registry with every slot empty, for concrete instantiations. -/
def emptyParent : hda_component_parent :=
  ⟨fun _ => { dev := none, name := "", playback_hook := none }⟩

/-- The registry that binding device 5 at index 2 into an empty registry
produces, for the C1 witness. -/
def boundParent2 : hda_component_parent :=
  ⟨fun j =>
    if j = (⟨2, by decide⟩ : Fin HDA_MAX_COMPONENTS) then
      { dev := some 5,
        name := strscpy ((fun _ => "i2c-MAX98390:00") 5) HDA_MAX_NAME_SIZE,
        playback_hook := some max98390_hda_playback_hook }
    else emptyParent.comps j⟩

/-- A register-cache state with everything off and zeroed, for concrete
instantiations. -/
def zeroRegmapState : RegmapState :=
  { cacheOnly := false, dirty := false, hw := fun _ => 0, cache := fun _ => 0 }

/-- A probe environment in which every external step succeeds. -/
def probeEnvOk : ProbeEnv :=
  { allocOk := true, ioSeq := fun _ => 0, componentAddRet := 0 }

/-- A registry whose slot 2 is occupied by device 5, for concrete
instantiations. -/
def occParent2 : hda_component_parent :=
  ⟨fun j =>
    if j = (⟨2, by decide⟩ : Fin HDA_MAX_COMPONENTS) then
      { dev := some 5, name := "i2c-dev", playback_hook := some max98390_hda_playback_hook }
    else { dev := none, name := "", playback_hook := none }⟩


/-! ## Helper lemmas -/

/-- Looking a slot up at an in-range index succeeds. -/
theorem hda_component_from_index_some (p : hda_component_parent)
    (i : Fin HDA_MAX_COMPONENTS) :
    hda_component_from_index (some p) (i.val : Int) = some i := by
  have hi := i.isLt
  have hcond : 0 ≤ (i.val : Int) ∧ (i.val : Int) < (HDA_MAX_COMPONENTS : Int) := by
    refine ⟨Int.ofNat_nonneg _, ?_⟩
    exact_mod_cast hi
  unfold hda_component_from_index
  rw [dif_pos hcond]
  rfl

/-- A successful slot lookup determines the registry and the slot result. -/
theorem max98390_hda_bind_ok (dn : Nat → String) (p : hda_component_parent)
    (index : Int) (d : Nat) (i : Fin HDA_MAX_COMPONENTS)
    (hidx : hda_component_from_index (some p) index = some i) :
    max98390_hda_bind dn (some p) index d =
      (0, some ⟨fun j =>
        if j = i then
          { dev := some d, name := strscpy (dn d) HDA_MAX_NAME_SIZE,
            playback_hook := some max98390_hda_playback_hook }
        else p.comps j⟩) := by
  simp [max98390_hda_bind, hidx]

/-! ## Claim theorems -/

/-- C1: for a bound slot, the stored playback hook answers the PCM Open
action with the writes (GLOBAL_EN 0x23FF, 0x01) then (AMP_EN 0x203A, 0x81)
and the PCM Close action with (AMP_EN 0x203A, 0x80) then
(GLOBAL_EN 0x23FF, 0x00), so delivering Open followed by Close produces
exactly the four writes in that order: within Open the global-enable write
strictly precedes the amplifier-enable write, and within Close the
amplifier-enable write strictly precedes the global-enable write. -/
theorem c1_open_close_write_sequence (dn : Nat → String)
    (parent : Option hda_component_parent) (index : Int) (d : Nat)
    (p2 : hda_component_parent) (i : Fin HDA_MAX_COMPONENTS)
    (hbind : max98390_hda_bind dn parent index d = (0, some p2))
    (hidx : hda_component_from_index parent index = some i) :
    ∃ hook, (p2.comps i).playback_hook = some hook ∧
      hook HDA_GEN_PCM_ACT_OPEN =
        [(MAX98390_R23FF_GLOBAL_EN, 0x01), (MAX98390_R203A_AMP_EN, 0x81)] ∧
      hook HDA_GEN_PCM_ACT_CLOSE =
        [(MAX98390_R203A_AMP_EN, 0x80), (MAX98390_R23FF_GLOBAL_EN, 0x00)] ∧
      hook HDA_GEN_PCM_ACT_OPEN ++ hook HDA_GEN_PCM_ACT_CLOSE =
        [(MAX98390_R23FF_GLOBAL_EN, 0x01), (MAX98390_R203A_AMP_EN, 0x81),
         (MAX98390_R203A_AMP_EN, 0x80), (MAX98390_R23FF_GLOBAL_EN, 0x00)] := by
  match parent with
  | none => simp [hda_component_from_index] at hidx
  | some p =>
      rw [max98390_hda_bind_ok dn p index d i hidx] at hbind
      have hp2 : p2 = ⟨fun j =>
          if j = i then
            { dev := some d, name := strscpy (dn d) HDA_MAX_NAME_SIZE,
              playback_hook := some max98390_hda_playback_hook }
          else p.comps j⟩ := by
        have := congrArg Prod.snd hbind
        simpa using this.symm
      subst hp2
      refine ⟨max98390_hda_playback_hook, by simp, rfl, rfl, rfl⟩

/-- C1 witness: binding device 5 at index 2 into an empty registry and
delivering Open then Close to the stored hook yields the four writes. -/
theorem c1_witness :
    ∃ hook, (boundParent2.comps ⟨2, by decide⟩).playback_hook = some hook ∧
      hook HDA_GEN_PCM_ACT_OPEN =
        [(MAX98390_R23FF_GLOBAL_EN, 0x01), (MAX98390_R203A_AMP_EN, 0x81)] ∧
      hook HDA_GEN_PCM_ACT_CLOSE =
        [(MAX98390_R203A_AMP_EN, 0x80), (MAX98390_R23FF_GLOBAL_EN, 0x00)] ∧
      hook HDA_GEN_PCM_ACT_OPEN ++ hook HDA_GEN_PCM_ACT_CLOSE =
        [(MAX98390_R23FF_GLOBAL_EN, 0x01), (MAX98390_R203A_AMP_EN, 0x81),
         (MAX98390_R203A_AMP_EN, 0x80), (MAX98390_R23FF_GLOBAL_EN, 0x00)] :=
  c1_open_close_write_sequence (fun _ => "i2c-MAX98390:00") (some emptyParent)
    2 5 boundParent2 ⟨2, by decide⟩ (by rfl) (by rfl)

/-- C2 counterexample: an I/O sequence whose only failure is the
software-reset write (access 1, not the revision read at access 0) still
aborts initialization with that error, so the software-reset write is
fatal, contrary to the claim. -/
theorem c2_counterexample :
    (fun n => if n = 1 then (-5 : Int) else 0) 0 = 0 ∧
    max98390_hda_init (fun n => if n = 1 then (-5 : Int) else 0) =
      .error (-5) := by
  refine ⟨rfl, ?_⟩
  simp [max98390_hda_init]

/-- C2 (amended): the probe-time initialization sequence aborts exactly
when the revision-register read (access 0) or the software-reset write
(access 1) fails; every later register write is non-fatal, and once those
two accesses succeed initialization succeeds with the full write trace
regardless of how many of the remaining writes failed. -/
theorem c2_fatal_accesses (ioSeq : Nat → Int) :
    ((∃ t, max98390_hda_init ioSeq = .ok t) ↔ (0 ≤ ioSeq 0 ∧ 0 ≤ ioSeq 1)) ∧
    (0 ≤ ioSeq 0 → 0 ≤ ioSeq 1 →
      max98390_hda_init ioSeq =
        .ok ((MAX98390_SOFTWARE_RESET, 0x01) :: max98390_init_writes)) := by
  unfold max98390_hda_init
  constructor
  · constructor
    · rintro ⟨t, ht⟩
      by_cases h0 : ioSeq 0 < 0
      · simp [h0] at ht
      · by_cases h1 : ioSeq 1 < 0
        · simp [h0, h1] at ht
        · exact ⟨by omega, by omega⟩
    · rintro ⟨h0, h1⟩
      refine ⟨(MAX98390_SOFTWARE_RESET, 0x01) :: max98390_init_writes, ?_⟩
      rw [if_neg (by omega), if_neg (by omega)]
  · intro h0 h1
    rw [if_neg (by omega), if_neg (by omega)]

/-- C7: every suspend call produces the event trace
[write AMP_EN 0x80, set cache-only true, mark dirty] in exactly that
order, returns 0 whatever the I/O result of the write, and leaves the
register cache in the cache-only-and-dirty state. -/
theorem c7_suspend_order_and_state (st : RegmapState) (ioRet : Int) :
    (max98390_hda_runtime_suspend st ioRet).1 = 0 ∧
    (max98390_hda_runtime_suspend st ioRet).2.1 =
      [RegmapEvent.write MAX98390_R203A_AMP_EN 0x80,
       RegmapEvent.cacheOnlySet true, RegmapEvent.markDirty] ∧
    (max98390_hda_runtime_suspend st ioRet).2.2.cacheOnly = true ∧
    (max98390_hda_runtime_suspend st ioRet).2.2.dirty = true :=
  ⟨rfl, rfl, rfl, rfl⟩

/-- C9 counterexample: after a probe that failed before any driver state
was stored (here: allocation failure, probe returns -ENOMEM and never sets
drvdata), remove performs no register write at all — in particular it does
not write amplifier-enable = 0x80, contrary to "always". -/
theorem c9_counterexample :
    max98390_hda_probe ⟨false, fun _ => 0, 0⟩ 1 "MAX98390" 0 0 (some 1)
      MAX98390_HDA_I2C 0x38 = .error (-ENOMEM) ∧
    max98390_hda_remove none = [] ∧
    (MAX98390_R203A_AMP_EN, 0x80) ∉ max98390_hda_remove none := by
  refine ⟨rfl, rfl, ?_⟩
  simp [max98390_hda_remove]

/-- C9 (amended): remove writes amplifier-enable = 0x80 exactly when
drvdata holds a driver state with a non-NULL register handle — in
particular it does so after a probe whose initialization failed, since the
driver state is stored before initialization runs — and skips the write
when no driver state (or no register handle) is present. -/
theorem c9_remove_amp_disable (drvdata : Option max98390_hda_priv) :
    ((MAX98390_R203A_AMP_EN, 0x80) ∈ max98390_hda_remove drvdata ↔
      (∃ priv r, drvdata = some priv ∧ priv.regmap = some r)) ∧
    (∀ priv, drvdata = some priv → priv.regmap ≠ none →
      max98390_hda_remove drvdata = [(MAX98390_R203A_AMP_EN, 0x80)]) := by
  constructor
  · match drvdata with
    | none => simp [max98390_hda_remove]
    | some priv =>
        match h : priv.regmap with
        | none => simp [max98390_hda_remove, h]
        | some r => simp [max98390_hda_remove, h]
  · intro priv hd hr
    subst hd
    match h : priv.regmap with
    | none => exact absurd h hr
    | some r => simp [max98390_hda_remove, h]

/-- Without a parseable suffix, index resolution falls back to the
address table. -/
theorem max98390_i2c_index_no_suffix (devName : String) (addr : Nat)
    (h : (strrchr_suffix devName).bind kstrtoint = none) :
    max98390_i2c_index devName addr = max98390_i2c_addr_index addr := by
  unfold max98390_i2c_index
  match hs : strrchr_suffix devName with
  | none => rfl
  | some suf =>
      rw [hs] at h
      simp only [Option.some_bind] at h
      dsimp only
      rw [h]

/-- C3: a device name with a trailing suffix that kstrtoint parses as N
resolves the slot index to N, taking priority over the address table; with
no parseable suffix the secondary I2C address maps 0x38→0, 0x39→1,
0x3c→2, 0x3d→3, and any other address makes the I2C probe fail with
-EINVAL (unmapped address) before any driver state is created. -/
theorem c3_index_resolution (dn : Nat → String) (env : ProbeEnv)
    (clt : i2c_client) :
    (∀ suf n, strrchr_suffix (dn clt.dev) = some suf →
        kstrtoint suf = some n →
        max98390_i2c_index (dn clt.dev) clt.addr = .ok n) ∧
    ((strrchr_suffix (dn clt.dev)).bind kstrtoint = none →
        max98390_i2c_index (dn clt.dev) 0x38 = .ok 0 ∧
        max98390_i2c_index (dn clt.dev) 0x39 = .ok 1 ∧
        max98390_i2c_index (dn clt.dev) 0x3c = .ok 2 ∧
        max98390_i2c_index (dn clt.dev) 0x3d = .ok 3 ∧
        (clt.addr ≠ 0x38 → clt.addr ≠ 0x39 → clt.addr ≠ 0x3c →
          clt.addr ≠ 0x3d →
          max98390_hda_i2c_probe dn env clt = .error (-EINVAL))) := by
  constructor
  · intro suf n h1 h2
    unfold max98390_i2c_index
    rw [h1]
    dsimp only
    rw [h2]
  · intro hnone
    refine ⟨by rw [max98390_i2c_index_no_suffix _ _ hnone]; rfl,
            by rw [max98390_i2c_index_no_suffix _ _ hnone]; rfl,
            by rw [max98390_i2c_index_no_suffix _ _ hnone]; rfl,
            by rw [max98390_i2c_index_no_suffix _ _ hnone]; rfl, ?_⟩
    intro h38 h39 h3c h3d
    unfold max98390_hda_i2c_probe
    rw [max98390_i2c_index_no_suffix _ _ hnone]
    unfold max98390_i2c_addr_index
    rw [if_neg h38, if_neg h39, if_neg h3c, if_neg h3d]

/-- C3 witness: the name "i2c-max98390-hda.2" at address 0x39 resolves to
index 2 (the suffix wins over the table's 1), and a suffix-free name at
the unmapped address 0x40 makes the probe fail with -EINVAL. -/
theorem c3_witness :
    max98390_i2c_index "i2c-max98390-hda.2" 0x39 = .ok 2 ∧
    max98390_hda_i2c_probe (fun _ => "max98390-hda") ⟨true, fun _ => 0, 0⟩
      ⟨0, 0x40, 0⟩ = .error (-EINVAL) :=
  ⟨(c3_index_resolution (fun _ => "i2c-max98390-hda.2") ⟨true, fun _ => 0, 0⟩
      ⟨0, 0x39, 0⟩).1 "2" 2 (by rfl) (by rfl),
   ((c3_index_resolution (fun _ => "max98390-hda") ⟨true, fun _ => 0, 0⟩
      ⟨0, 0x40, 0⟩).2 (by rfl)).2.2.2.2
      (by decide) (by decide) (by decide) (by decide)⟩

/-- A successful probe returns exactly the driver state it filled in:
the index stored is the id passed. -/
theorem max98390_hda_probe_ok_inv (env : ProbeEnv) (dev : Nat)
    (device_name : String) (id : Int) (irq : Int) (regmap : Option Nat)
    (bus_type : Nat) (i2c_addr : Nat) (priv : max98390_hda_priv)
    (hok : max98390_hda_probe env dev device_name id irq regmap bus_type
      i2c_addr = .ok priv) :
    priv = { dev := dev, regmap := regmap, bus_type := bus_type, irq := irq,
             index := id, i2c_addr := i2c_addr } := by
  unfold max98390_hda_probe at hok
  by_cases ha : env.allocOk = false
  · rw [if_pos ha] at hok
    simp at hok
  · rw [if_neg ha] at hok
    match hinit : max98390_hda_init env.ioSeq with
    | .error e =>
        rw [hinit] at hok
        simp at hok
    | .ok t =>
        rw [hinit] at hok
        dsimp only at hok
        by_cases hc : env.componentAddRet ≠ 0
        · rw [if_pos hc] at hok
          simp at hok
        · rw [if_neg hc] at hok
          exact (Except.ok.inj hok).symm

/-- A successful I2C probe stores the resolved index in the driver state. -/
theorem max98390_hda_i2c_probe_ok_index (dn : Nat → String) (env : ProbeEnv)
    (clt : i2c_client) (priv : max98390_hda_priv)
    (hok : max98390_hda_i2c_probe dn env clt = .ok priv) :
    max98390_i2c_index (dn clt.dev) clt.addr = .ok priv.index := by
  unfold max98390_hda_i2c_probe at hok
  match hres : max98390_i2c_index (dn clt.dev) clt.addr with
  | .error e =>
      rw [hres] at hok
      simp at hok
  | .ok index =>
      rw [hres] at hok
      have h := max98390_hda_probe_ok_inv _ _ _ _ _ _ _ _ _ hok
      rw [h]

/-- C4 counterexample: an I2C probe whose name carries the suffix ".7"
succeeds (address 0x38, all external steps succeeding) and creates a
driver state whose stored index is 7, which lies outside [0, 4). -/
theorem c4_counterexample :
    max98390_hda_i2c_probe (fun _ => "i2c-MX98390:00-max98390-hda.7")
        ⟨true, fun _ => 0, 0⟩ ⟨1, 0x38, 5⟩ =
      .ok { dev := 1, regmap := some 1, bus_type := MAX98390_HDA_I2C,
            irq := 5, index := 7, i2c_addr := 0x38 } ∧
    ¬ (0 ≤ (7 : Int) ∧ (7 : Int) < 4) :=
  ⟨by rfl, by decide⟩

/-- C4 (amended): a driver state created by a probe whose index came from
the address table (no parseable name suffix) always stores an index in
[0, 4); the suffix path stores the parsed value without any range check,
so a suffix-derived index may lie outside [0, 4). -/
theorem c4_addr_table_index_in_range (dn : Nat → String) (env : ProbeEnv)
    (clt : i2c_client) (priv : max98390_hda_priv)
    (hsuf : (strrchr_suffix (dn clt.dev)).bind kstrtoint = none)
    (hok : max98390_hda_i2c_probe dn env clt = .ok priv) :
    0 ≤ priv.index ∧ priv.index < 4 := by
  have h1 := max98390_hda_i2c_probe_ok_index dn env clt priv hok
  rw [max98390_i2c_index_no_suffix _ _ hsuf] at h1
  unfold max98390_i2c_addr_index at h1
  split at h1
  · have := Except.ok.inj h1
    omega
  · split at h1
    · have := Except.ok.inj h1
      omega
    · split at h1
      · have := Except.ok.inj h1
        omega
      · split at h1
        · have := Except.ok.inj h1
          omega
        · simp at h1

/-- C4 witness: a suffix-free name at address 0x3c yields a driver state
whose stored index 2 lies in [0, 4). -/
theorem c4_witness :
    0 ≤ (max98390_hda_priv.mk 0 (some 0) MAX98390_HDA_I2C 0 2 0x3c).index ∧
    (max98390_hda_priv.mk 0 (some 0) MAX98390_HDA_I2C 0 2 0x3c).index < 4 :=
  c4_addr_table_index_in_range (fun _ => "max98390-hda")
    ⟨true, fun _ => 0, 0⟩ ⟨0, 0x3c, 0⟩
    (max98390_hda_priv.mk 0 (some 0) MAX98390_HDA_I2C 0 2 0x3c)
    (by rfl) (by rfl)

/-- C5: bind fails with -EINVAL exactly when no registry is supplied or
the index is outside [0, 4), and then leaves the registry unchanged; for
an in-range index it returns 0 and unconditionally overwrites that slot's
identity, name and playback hook — whatever the slot held before (no
occupancy check, last writer wins) — leaving every other slot unchanged. -/
theorem c5_bind_invalid_or_overwrites (dn : Nat → String)
    (parent : Option hda_component_parent) (index : Int) (d : Nat) :
    ((parent = none ∨ index < 0 ∨ (HDA_MAX_COMPONENTS : Int) ≤ index) →
        max98390_hda_bind dn parent index d = (-EINVAL, parent)) ∧
    (∀ p : hda_component_parent, parent = some p →
      ∀ i : Fin HDA_MAX_COMPONENTS, index = (i.val : Int) →
        (max98390_hda_bind dn parent index d).1 = 0 ∧
        ∃ p2, (max98390_hda_bind dn parent index d).2 = some p2 ∧
          (p2.comps i).dev = some d ∧
          (p2.comps i).name = strscpy (dn d) HDA_MAX_NAME_SIZE ∧
          (p2.comps i).playback_hook = some max98390_hda_playback_hook ∧
          ∀ j, j ≠ i → p2.comps j = p.comps j) := by
  constructor
  · intro hbad
    match parent with
    | none => rfl
    | some p =>
        have hrange : ¬ (0 ≤ index ∧ index < (HDA_MAX_COMPONENTS : Int)) := by
          rcases hbad with h | h | h
          · exact absurd h (by simp)
          · intro hc; omega
          · intro hc; omega
        unfold max98390_hda_bind hda_component_from_index
        rw [dif_neg hrange]
  · intro p hp i hi
    subst hp
    subst hi
    rw [max98390_hda_bind_ok dn p _ d i (hda_component_from_index_some p i)]
    refine ⟨rfl, _, rfl, by simp, by simp, by simp, ?_⟩
    intro j hj
    simp [hj]

/-- C5 witness: bind with no registry fails and changes nothing; bind at
the out-of-range index 7 fails and leaves the registry unchanged; bind at
index 2 of an empty registry succeeds and fills slot 2. -/
theorem c5_witness :
    max98390_hda_bind (fun _ => "i2c-dev") none 2 5 = (-EINVAL, none) ∧
    max98390_hda_bind (fun _ => "i2c-dev") (some emptyParent) 7 5 =
      (-EINVAL, some emptyParent) ∧
    ((max98390_hda_bind (fun _ => "i2c-dev") (some emptyParent) 2 5).1 = 0 ∧
      ∃ p2, (max98390_hda_bind (fun _ => "i2c-dev")
          (some emptyParent) 2 5).2 = some p2 ∧
        (p2.comps ⟨2, by decide⟩).dev = some 5 ∧
        (p2.comps ⟨2, by decide⟩).name =
          strscpy ((fun _ => "i2c-dev") 5) HDA_MAX_NAME_SIZE ∧
        (p2.comps ⟨2, by decide⟩).playback_hook =
          some max98390_hda_playback_hook ∧
        ∀ j, j ≠ (⟨2, by decide⟩ : Fin HDA_MAX_COMPONENTS) →
          p2.comps j = emptyParent.comps j) :=
  ⟨(c5_bind_invalid_or_overwrites (fun _ => "i2c-dev") none 2 5).1
      (Or.inl rfl),
   (c5_bind_invalid_or_overwrites (fun _ => "i2c-dev")
      (some emptyParent) 7 5).1 (Or.inr (Or.inr (by decide))),
   (c5_bind_invalid_or_overwrites (fun _ => "i2c-dev")
      (some emptyParent) 2 5).2 emptyParent rfl ⟨2, by decide⟩ (by decide)⟩

/-- C6: unbind clears the slot's identity, name and playback hook exactly
when the slot's stored identity equals the supplied identity, leaving the
other slots unchanged; when the identities differ the whole registry is
left unchanged, and the operation is idempotent. -/
theorem c6_unbind_identity_match (parent : Option hda_component_parent)
    (p : hda_component_parent) (hp : parent = some p)
    (i : Fin HDA_MAX_COMPONENTS) (index : Int) (hi : index = (i.val : Int))
    (d : Nat) :
    ((p.comps i).dev = some d →
        ∃ p2, max98390_hda_unbind parent index d = some p2 ∧
          (p2.comps i).dev = none ∧ (p2.comps i).name = "" ∧
          (p2.comps i).playback_hook = none ∧
          ∀ j, j ≠ i → p2.comps j = p.comps j) ∧
    ((p.comps i).dev ≠ some d →
        max98390_hda_unbind parent index d = some p) ∧
    max98390_hda_unbind (max98390_hda_unbind parent index d) index d =
      max98390_hda_unbind parent index d := by
  subst hp
  subst hi
  have hfrom := hda_component_from_index_some p i
  have hun : ∀ q : hda_component_parent,
      max98390_hda_unbind (some q) (i.val : Int) d =
        (if (q.comps i).dev = some d then
          some ⟨fun j =>
            if j = i then { dev := none, name := "", playback_hook := none }
            else q.comps j⟩
        else some q) := by
    intro q
    unfold max98390_hda_unbind
    rw [hda_component_from_index_some q i]
  refine ⟨?_, ?_, ?_⟩
  · intro hdev
    rw [hun p, if_pos hdev]
    refine ⟨_, rfl, by simp, by simp, by simp, ?_⟩
    intro j hj
    simp [hj]
  · intro hdev
    rw [hun p, if_neg hdev]
  · by_cases hdev : (p.comps i).dev = some d
    · rw [hun p, if_pos hdev, hun, if_neg (by simp)]
    · rw [hun p, if_neg hdev, hun p, if_neg hdev]

/-- C6 witness: in a registry whose slot 2 is occupied by device 5,
unbind with the other identity 9 leaves the registry unchanged, and
unbind with identity 5 clears slot 2; the call is idempotent. -/
theorem c6_witness :
    ((occParent2.comps ⟨2, by decide⟩).dev = some 5 →
        ∃ p2, max98390_hda_unbind (some occParent2) 2 5 = some p2 ∧
          (p2.comps ⟨2, by decide⟩).dev = none ∧
          (p2.comps ⟨2, by decide⟩).name = "" ∧
          (p2.comps ⟨2, by decide⟩).playback_hook = none ∧
          ∀ j, j ≠ (⟨2, by decide⟩ : Fin HDA_MAX_COMPONENTS) →
            p2.comps j = occParent2.comps j) ∧
    ((occParent2.comps ⟨2, by decide⟩).dev ≠ some 5 →
        max98390_hda_unbind (some occParent2) 2 5 = some occParent2) ∧
    max98390_hda_unbind (max98390_hda_unbind (some occParent2) 2 5) 2 5 =
      max98390_hda_unbind (some occParent2) 2 5 :=
  c6_unbind_identity_match (some occParent2) occParent2 rfl
    ⟨2, by decide⟩ 2 (by decide) 5

/-- While the cache is in cache-only mode, a write sequence keeps it in
cache-only mode and accumulates last-writer-wins values in the mirror. -/
theorem regmap_write_seq_cache_only (ws : List ((Nat × Nat) × Int))
    (st : RegmapState) (h : st.cacheOnly = true) :
    (regmap_write_seq st ws).cacheOnly = true ∧
    (∀ a v, lastWrite ws a = some v → (regmap_write_seq st ws).cache a = v) ∧
    (∀ a, lastWrite ws a = none →
      (regmap_write_seq st ws).cache a = st.cache a) := by
  induction ws generalizing st with
  | nil =>
      refine ⟨h, ?_, ?_⟩
      · intro a v hv
        simp [lastWrite] at hv
      · intro a ha
        rfl
  | cons wr rest ih =>
      obtain ⟨⟨a0, v0⟩, r⟩ := wr
      have hw : (regmap_write st a0 v0 r).2 =
          { st with
              cache := (fun a => if a = a0 then v0 else st.cache a),
              dirty := true } := by
        simp [regmap_write, h]
      have hco : ((regmap_write st a0 v0 r).2).cacheOnly = true := by
        rw [hw]
        exact h
      have ihh := ih ((regmap_write st a0 v0 r).2) hco
      refine ⟨ihh.1, ?_, ?_⟩
      · intro a v hv
        unfold lastWrite at hv
        show (regmap_write_seq (regmap_write st a0 v0 r).2 rest).cache a = v
        match hrest : lastWrite rest a with
        | some v2 =>
            rw [hrest] at hv
            dsimp only at hv
            have hv2 : v2 = v := Option.some.inj hv
            rw [← hv2]
            exact ihh.2.1 a v2 hrest
        | none =>
            rw [hrest] at hv
            dsimp only at hv
            by_cases ha : a0 = a
            · rw [if_pos ha] at hv
              have hv0 : v0 = v := Option.some.inj hv
              have hcache := ihh.2.2 a hrest
              rw [hcache, hw]
              subst ha
              simp [hv0]
            · rw [if_neg ha] at hv
              cases hv
      · intro a ha
        unfold lastWrite at ha
        show (regmap_write_seq (regmap_write st a0 v0 r).2 rest).cache a =
          st.cache a
        match hrest : lastWrite rest a with
        | some v2 =>
            rw [hrest] at ha
            dsimp only at ha
            cases ha
        | none =>
            rw [hrest] at ha
            dsimp only at ha
            have hne : a0 ≠ a := by
              intro hc
              rw [if_pos hc] at ha
              cases ha
            have hcache := ihh.2.2 a hrest
            rw [hcache, hw]
            simp [Ne.symm hne]

/-- C8: every resume call first clears cache-only mode and then performs
the cache sync, returns 0, and re-applies to hardware the last value
written to each address while the device was suspended (last write wins
per address). -/
theorem c8_resume_replays_writes (st0 : RegmapState) (ioRet : Int)
    (ws : List ((Nat × Nat) × Int)) (a v : Nat)
    (hlast : lastWrite ws a = some v) :
    (max98390_hda_runtime_resume (regmap_write_seq
        (max98390_hda_runtime_suspend st0 ioRet).2.2 ws)).1 = 0 ∧
    (max98390_hda_runtime_resume (regmap_write_seq
        (max98390_hda_runtime_suspend st0 ioRet).2.2 ws)).2.1 =
      [RegmapEvent.cacheOnlySet false, RegmapEvent.sync] ∧
    (max98390_hda_runtime_resume (regmap_write_seq
        (max98390_hda_runtime_suspend st0 ioRet).2.2 ws)).2.2.cacheOnly =
      false ∧
    (max98390_hda_runtime_resume (regmap_write_seq
        (max98390_hda_runtime_suspend st0 ioRet).2.2 ws)).2.2.hw a = v := by
  have hsus : ((max98390_hda_runtime_suspend st0 ioRet).2.2).cacheOnly =
      true := rfl
  have hseq := regmap_write_seq_cache_only ws _ hsus
  exact ⟨rfl, rfl, rfl, hseq.2.1 a v hlast⟩

/-- C8 witness: writing 0xc0 to the PCM mode register while suspended and
then resuming re-applies 0xc0 to that hardware register. -/
theorem c8_witness :
    lastWrite [((MAX98390_PCM_MODE_CFG, 0xc0), 0)] MAX98390_PCM_MODE_CFG =
      some 0xc0 ∧
    (max98390_hda_runtime_resume (regmap_write_seq
        (max98390_hda_runtime_suspend zeroRegmapState 0).2.2
        [((MAX98390_PCM_MODE_CFG, 0xc0), 0)])).1 = 0 ∧
    (max98390_hda_runtime_resume (regmap_write_seq
        (max98390_hda_runtime_suspend zeroRegmapState 0).2.2
        [((MAX98390_PCM_MODE_CFG, 0xc0), 0)])).2.1 =
      [RegmapEvent.cacheOnlySet false, RegmapEvent.sync] ∧
    (max98390_hda_runtime_resume (regmap_write_seq
        (max98390_hda_runtime_suspend zeroRegmapState 0).2.2
        [((MAX98390_PCM_MODE_CFG, 0xc0), 0)])).2.2.cacheOnly = false ∧
    (max98390_hda_runtime_resume (regmap_write_seq
        (max98390_hda_runtime_suspend zeroRegmapState 0).2.2
        [((MAX98390_PCM_MODE_CFG, 0xc0), 0)])).2.2.hw
      MAX98390_PCM_MODE_CFG = 0xc0 :=
  ⟨rfl, (c8_resume_replays_writes zeroRegmapState 0
      [((MAX98390_PCM_MODE_CFG, 0xc0), 0)] MAX98390_PCM_MODE_CFG 0xc0 rfl).1,
    (c8_resume_replays_writes zeroRegmapState 0
      [((MAX98390_PCM_MODE_CFG, 0xc0), 0)] MAX98390_PCM_MODE_CFG 0xc0
      rfl).2⟩

/-- C10 (implicit): probe's displayName argument is never used — probing
with any two display names yields identical results — and the name a bind
stores in the slot is the bound device's kernel device name (dev_name of
the device handle, strscpy-truncated to the slot's buffer; equal to the
device name whenever it fits), independent of any probe displayName. -/
theorem c10_display_name_unused (env : ProbeEnv) (dev : Nat)
    (nm nm2 : String) (id : Int) (irq : Int) (regmap : Option Nat)
    (bus_type : Nat) (i2c_addr : Nat) (dn : Nat → String)
    (parent : Option hda_component_parent) (index : Int) (d : Nat)
    (p2 : hda_component_parent) (i : Fin HDA_MAX_COMPONENTS)
    (hbind : max98390_hda_bind dn parent index d = (0, some p2))
    (hidx : hda_component_from_index parent index = some i) :
    max98390_hda_probe env dev nm id irq regmap bus_type i2c_addr =
      max98390_hda_probe env dev nm2 id irq regmap bus_type i2c_addr ∧
    (p2.comps i).name = strscpy (dn d) HDA_MAX_NAME_SIZE ∧
    ((dn d).data.length < HDA_MAX_NAME_SIZE → (p2.comps i).name = dn d) := by
  refine ⟨rfl, ?_⟩
  match parent with
  | none => simp [hda_component_from_index] at hidx
  | some p =>
      rw [max98390_hda_bind_ok dn p index d i hidx] at hbind
      have hp2 : p2 = ⟨fun j =>
          if j = i then
            { dev := some d, name := strscpy (dn d) HDA_MAX_NAME_SIZE,
              playback_hook := some max98390_hda_playback_hook }
          else p.comps j⟩ := by
        have hsnd := congrArg Prod.snd hbind
        simpa using hsnd.symm
      subst hp2
      refine ⟨by simp, ?_⟩
      intro hlen
      have hname : (dn d).data.length ≤ HDA_MAX_NAME_SIZE - 1 := by
        simp only [HDA_MAX_NAME_SIZE] at hlen ⊢
        omega
      simp [strscpy, List.take_of_length_le hname]

/-- C10 witness: probing with display names "MAX98390" and "ANOTHER-NAME"
gives the same result, and the slot bind filled holds the device's kernel
name, which fits the 50-byte buffer. -/
theorem c10_witness :
    max98390_hda_probe probeEnvOk 1 "MAX98390" 2 0 (some 1)
      MAX98390_HDA_I2C 0x3c =
      max98390_hda_probe probeEnvOk 1 "ANOTHER-NAME" 2 0 (some 1)
        MAX98390_HDA_I2C 0x3c ∧
    (boundParent2.comps ⟨2, by decide⟩).name =
      strscpy ((fun _ => "i2c-MAX98390:00") 5) HDA_MAX_NAME_SIZE ∧
    (((fun _ => "i2c-MAX98390:00") 5 : String).data.length <
        HDA_MAX_NAME_SIZE →
      (boundParent2.comps ⟨2, by decide⟩).name =
        (fun _ => "i2c-MAX98390:00") 5) :=
  c10_display_name_unused probeEnvOk 1 "MAX98390" "ANOTHER-NAME" 2 0
    (some 1) MAX98390_HDA_I2C 0x3c (fun _ => "i2c-MAX98390:00")
    (some emptyParent) 2 5 boundParent2 ⟨2, by decide⟩ (by rfl) (by rfl)
